import Mathlib

/-!
Verification of the rjobs job-execution framework (an ActiveJob-style
background-job library for Node.js).

The definitions below are a shallow embedding of the JavaScript source:

* `Event`, `Job`, `handleError`, `performNow` embed `BaseJob.performNow`
  (base-job module): the lifecycle hooks `beforePerform`, `perform`,
  `afterPerform`, `onError` run inside one try/catch; the catch block
  invokes `onError` (when defined) and rethrows.
* `JobStatics`, `BaseJob.set`, `BaseJob.performLaterOptions`,
  `BaseJob.performInOptions`, `BaseJob.performAtOptions` embed the static
  (class-level) dispatch surface of `BaseJob`.
* `Config`, `setQueueAdapter`, `setRedis` embed src/config.js.
* `RedisAdapter.enqueue` and `InlineAdapter.enqueue` embed the two
  adapters in src/adapters.
* `WorkerState`, `startWorker` embed the worker registry map of
  src/worker.js.

JavaScript promises are modelled by `Except`: an async function that can
reject is a function into `Except ε _`.  Hook invocations are recorded in
an event trace so that ordering claims are statements about lists.
-/

namespace Rjobs

/-- One observable hook invocation during `performNow`.  `performCall`
records the exact argument list the `perform` method receives. -/
inductive Event (α β ε : Type) where
  | beforeCall : Event α β ε
  | performCall : List α → Event α β ε
  | afterCall : β → Event α β ε
  | onErrorCall : ε → Event α β ε
deriving DecidableEq

/-- Instance-level behaviour of a job class: the `perform` method and the
three optional lifecycle hooks.  A hook is `none` when the subclass does
not define it; a defined hook is modelled by its outcome (`Except.ok` when
the async hook resolves, `Except.error e` when it rejects with `e`).
`perform` maps the received argument list to its outcome. -/
structure Job (α β ε : Type) where
  beforePerform : Option (Except ε Unit)
  perform : List α → Except ε β
  afterPerform : Option (β → Except ε Unit)
  onError : Option (ε → Except ε Unit)

/-- The catch block of `performNow` (base-job module, lines 84-90): when
`onError` is defined it is awaited with the caught error `e`; if it
resolves, the original `e` is rethrown; if `onError` itself rejects, that
rejection propagates instead (the `throw error` line is never reached). -/
def handleError (j : Job α β ε) (e : ε) (tr : List (Event α β ε)) :
    Except ε β × List (Event α β ε) :=
  match j.onError with
  | none => (Except.error e, tr)
  | some g =>
    match g e with
    | Except.ok _ => (Except.error e, tr ++ [Event.onErrorCall e])
    | Except.error e2 => (Except.error e2, tr ++ [Event.onErrorCall e])

/-- `BaseJob.performNow(...args)` (base-job module, lines 66-91).  The try
block awaits `beforePerform` (if defined), then `perform(...args)`, then
`afterPerform(result)` (if defined) and returns the result; any rejection
inside the try block, including one from `beforePerform` or
`afterPerform`, reaches the catch block `handleError`.  The second
component is the trace of hook invocations in order. -/
def performNow (j : Job α β ε) (args : List α) :
    Except ε β × List (Event α β ε) :=
  match j.beforePerform with
  | some (Except.error e) => handleError j e [Event.beforeCall]
  | b =>
    let tr1 : List (Event α β ε) :=
      match b with
      | none => []
      | some _ => [Event.beforeCall]
    match j.perform args with
    | Except.error e => handleError j e (tr1 ++ [Event.performCall args])
    | Except.ok r =>
      let tr2 := tr1 ++ [Event.performCall args]
      match j.afterPerform with
      | none => (Except.ok r, tr2)
      | some f =>
        match f r with
        | Except.ok _ => (Except.ok r, tr2 ++ [Event.afterCall r])
        | Except.error e => handleError j e (tr2 ++ [Event.afterCall r])

/-- A job with all three hooks defined, every hook resolving, used as a
concrete instance of the lifecycle theorems. -/
def hookJob : Job Nat Nat Nat where
  beforePerform := some (Except.ok ())
  perform := fun args => Except.ok (args.foldr (fun a b => a + b) 0)
  afterPerform := some (fun _ => Except.ok ())
  onError := some (fun _ => Except.ok ())

/-- A job whose beforePerform hook rejects with error 7 and which defines
an onError handler; its perform would succeed if reached. -/
def beforeFailJob : Job Nat Nat Nat where
  beforePerform := some (Except.error 7)
  perform := fun _ => Except.ok 0
  afterPerform := none
  onError := some (fun _ => Except.ok ())

/-- A job whose perform rejects with error 1 and whose onError handler
itself rejects with error 2. -/
def onErrorFailJob : Job Nat Nat Nat where
  beforePerform := none
  perform := fun _ => Except.error 1
  afterPerform := none
  onError := some (fun _ => Except.error 2)

/-- A job whose perform rejects with error 5 and whose onError handler
resolves. -/
def performFailJob : Job Nat Nat Nat where
  beforePerform := some (Except.ok ())
  perform := fun _ => Except.error 5
  afterPerform := none
  onError := some (fun _ => Except.ok ())

/-- Claim C1: with all three hooks defined and beforePerform resolving,
performNow invokes beforePerform, then perform with exactly the given
argument list, then afterPerform with the result when perform succeeds
(those three invocations, in that order, open the trace), and the trace is
exactly beforePerform, perform, onError when perform rejects. -/
theorem performNow_hook_order
    (j : Job α β ε) (args : List α) (f : β → Except ε Unit)
    (g : ε → Except ε Unit)
    (hb : j.beforePerform = some (Except.ok ()))
    (ha : j.afterPerform = some f)
    (ho : j.onError = some g) :
    (∀ r, j.perform args = Except.ok r →
        ∃ rest, (performNow j args).2
          = Event.beforeCall :: Event.performCall args :: Event.afterCall r :: rest)
    ∧ (∀ e, j.perform args = Except.error e →
        (performNow j args).2
          = [Event.beforeCall, Event.performCall args, Event.onErrorCall e]) := by
  constructor
  · intro r hr
    cases hfr : f r with
    | ok u =>
      exact ⟨[], by simp [performNow, handleError, hb, ha, ho, hr, hfr]⟩
    | error e2 =>
      cases hge : g e2 with
      | ok u =>
        exact ⟨[Event.onErrorCall e2],
          by simp [performNow, handleError, hb, ha, ho, hr, hfr, hge]⟩
      | error e3 =>
        exact ⟨[Event.onErrorCall e2],
          by simp [performNow, handleError, hb, ha, ho, hr, hfr, hge]⟩
  · intro e he
    cases hge : g e with
    | ok u => simp [performNow, handleError, hb, ha, ho, he, hge]
    | error e3 => simp [performNow, handleError, hb, ha, ho, he, hge]

/-- Claim C1 witness: concrete run of the hook-order theorem on hookJob. -/
theorem performNow_hook_order_witness :
    ∃ rest, (performNow hookJob [1, 2]).2
      = Event.beforeCall :: Event.performCall [1, 2]
          :: Event.afterCall 3 :: rest :=
  (performNow_hook_order hookJob [1, 2] (fun _ => Except.ok ())
      (fun _ => Except.ok ()) rfl rfl rfl).1 3 rfl

/-- Claim C2 counterexample: when beforePerform rejects, the catch block
of performNow still runs, so a defined onError handler IS invoked with the
beforePerform error (here: trace = [beforeCall, onErrorCall 7]), refuting
the claim that onError is not invoked in this case. -/
theorem performNow_before_error_invokes_onError :
    performNow beforeFailJob []
      = (Except.error 7, [Event.beforeCall, Event.onErrorCall 7])
    ∧ Event.onErrorCall 7 ∈ (performNow beforeFailJob []).2 := by
  refine ⟨rfl, ?_⟩
  simp [performNow, handleError, beforeFailJob]

/-- Claim C2 amended: when beforePerform rejects with e, performNow
rejects (with e itself when onError is absent or resolves), perform is
never invoked, and onError, when defined, IS invoked with e before the
error propagates. -/
theorem performNow_before_error
    (j : Job α β ε) (args : List α) (e : ε)
    (hb : j.beforePerform = some (Except.error e)) :
    (∃ e2, (performNow j args).1 = Except.error e2)
    ∧ (∀ a, Event.performCall a ∉ (performNow j args).2)
    ∧ (j.onError = none →
        performNow j args = (Except.error e, [Event.beforeCall]))
    ∧ (∀ g, j.onError = some g →
        (performNow j args).2 = [Event.beforeCall, Event.onErrorCall e]
        ∧ (g e = Except.ok () → (performNow j args).1 = Except.error e)) := by
  cases ho : j.onError with
  | none =>
    refine ⟨⟨e, ?_⟩, ?_, ?_, ?_⟩ <;>
      simp [performNow, handleError, hb, ho]
  | some g =>
    cases hge : g e with
    | ok u =>
      refine ⟨⟨e, ?_⟩, ?_, ?_, ?_⟩ <;>
        simp [performNow, handleError, hb, ho, hge]
    | error e2 =>
      refine ⟨⟨e2, ?_⟩, ?_, ?_, ?_⟩ <;>
        simp [performNow, handleError, hb, ho, hge]

/-- Claim C2 amended witness: concrete run on beforeFailJob. -/
theorem performNow_before_error_witness :
    (performNow beforeFailJob []).2
      = [Event.beforeCall, Event.onErrorCall 7]
    ∧ (performNow beforeFailJob []).1 = Except.error 7 := by
  have h := performNow_before_error beforeFailJob [] 7 rfl
  exact ⟨(h.2.2.2 (fun _ => Except.ok ()) rfl).1,
    (h.2.2.2 (fun _ => Except.ok ()) rfl).2 rfl⟩

/-- Claim C3 counterexample: when perform rejects with error 1 and the
onError handler itself rejects with error 2, performNow rejects with the
handler error 2, a substitute for the original error 1, refuting the
claim that the original error is always re-raised. -/
theorem performNow_onError_error_replaces :
    (performNow onErrorFailJob []).1 = Except.error 2
    ∧ (Except.error 2 : Except Nat Nat) ≠ Except.error 1 :=
  ⟨rfl, by simp⟩

/-- Claim C3 amended: when perform rejects with e and onError is defined,
onError is invoked with the original e, performNow always rejects (the
error is never suppressed); it rejects with the original e when onError
resolves, and with the onError rejection when onError itself rejects. -/
theorem performNow_perform_error
    (j : Job α β ε) (args : List α) (e : ε) (g : ε → Except ε Unit)
    (hb : j.beforePerform = some (Except.ok ()) ∨ j.beforePerform = none)
    (hp : j.perform args = Except.error e)
    (ho : j.onError = some g) :
    Event.onErrorCall e ∈ (performNow j args).2
    ∧ (∃ e2, (performNow j args).1 = Except.error e2)
    ∧ (g e = Except.ok () → (performNow j args).1 = Except.error e)
    ∧ (∀ e2, g e = Except.error e2 →
        (performNow j args).1 = Except.error e2) := by
  cases hb with
  | inl h =>
    cases hge : g e with
    | ok u =>
      refine ⟨?_, ⟨e, ?_⟩, ?_, ?_⟩ <;>
        simp [performNow, handleError, h, hp, ho, hge]
    | error e2 =>
      refine ⟨?_, ⟨e2, ?_⟩, ?_, ?_⟩ <;>
        simp [performNow, handleError, h, hp, ho, hge]
  | inr h =>
    cases hge : g e with
    | ok u =>
      refine ⟨?_, ⟨e, ?_⟩, ?_, ?_⟩ <;>
        simp [performNow, handleError, h, hp, ho, hge]
    | error e2 =>
      refine ⟨?_, ⟨e2, ?_⟩, ?_, ?_⟩ <;>
        simp [performNow, handleError, h, hp, ho, hge]

/-- Claim C3 amended witness: concrete run on performFailJob. -/
theorem performNow_perform_error_witness :
    Event.onErrorCall 5 ∈ (performNow performFailJob [9]).2
    ∧ (performNow performFailJob [9]).1 = Except.error 5 := by
  have h := performNow_perform_error performFailJob [9] 5
    (fun _ => Except.ok ()) (Or.inl rfl) rfl rfl
  exact ⟨h.1, h.2.2.1 rfl⟩

/-- Class-level (static) data of a job class: `queue`, `retryAttempts`,
`backoffDelay`, the registration-time `_filePath` and the class `name`
(base-job module, lines 11-57).  `none` models the null defaults. -/
structure JobStatics where
  name : String
  queue : String
  retryAttempts : Option Nat
  backoffDelay : Option Nat
  filePath : Option String
deriving DecidableEq

/-- The options object accepted by `BaseJob.set` (base-job module,
lines 150-158): each field is optional, absent fields fall back to the
class statics via the JavaScript nullish-coalescing operator. -/
structure SetOptions where
  queue : Option String
  attempts : Option Nat
  backoff : Option Nat
deriving DecidableEq

/-- `BaseJob.set(options)` (base-job module, lines 150-175).  The source
creates a fresh subclass `ConfiguredJob` and writes the merged statics
only to it; the original class object is never assigned to.  The first
component is the original class statics as left after the call, the
second is the ConfiguredJob statics that the returned scoped
performLater/performIn/performAt delegate to. -/
def BaseJob.set (J : JobStatics) (options : SetOptions) :
    JobStatics × JobStatics :=
  let ConfiguredJob : JobStatics :=
    { name := J.name
      queue := match options.queue with
               | some q => q
               | none => J.queue
      retryAttempts := match options.attempts with
                       | some a => some a
                       | none => J.retryAttempts
      backoffDelay := match options.backoff with
                      | some b => some b
                      | none => J.backoffDelay
      filePath := J.filePath }
  (J, ConfiguredJob)

/-- Redis connection settings held by the configuration store
(src/config.js, defaults host localhost, port 6379, no password). -/
structure RedisConf where
  host : String
  port : Nat
  password : Option String
deriving DecidableEq

/-- The process-wide configuration state (src/config.js,
`currentConfig`). -/
structure Config where
  queueAdapter : String
  redis : RedisConf
  defaultRetryAttempts : Nat
  defaultBackoffDelay : Nat
deriving DecidableEq

/-- `defaultConfig` of src/config.js, lines 13-21. -/
def defaultConfig : Config where
  queueAdapter := "inline"
  redis := { host := "localhost", port := 6379, password := none }
  defaultRetryAttempts := 3
  defaultBackoffDelay := 1000

/-- `Object.values(ADAPTER_TYPES)` of src/config.js, lines 7-10. -/
def ADAPTER_TYPES : List String := ["inline", "redis"]

/-- The `config.queueAdapter` setter (src/config.js, lines 45-50): it
throws synchronously when the assigned value is not a known adapter type
and only updates the stored kind otherwise. -/
def setQueueAdapter (c : Config) (adapter : String) :
    Except String Config :=
  if adapter ∈ ADAPTER_TYPES then
    Except.ok { c with queueAdapter := adapter }
  else
    Except.error ("Unknown adapter: " ++ adapter ++ ". Valid options: inline, redis")

/-- The configuration state observed after an assignment to
`config.queueAdapter`: unchanged when the setter threw. -/
def configAfterSetAdapter (c : Config) (adapter : String) : Config :=
  match setQueueAdapter c adapter with
  | Except.ok c2 => c2
  | Except.error _ => c

/-- The partial options object assigned to `config.redis`; `none` models
an absent key. -/
structure RedisAssign where
  host : Option String
  port : Option Nat
  password : Option String
deriving DecidableEq

/-- The `config.redis` setter (src/config.js, lines 59-61):
`currentConfig.redis = { ...currentConfig.redis, ...options }`, a spread
merge in which keys present in the assigned object win and absent keys
keep their previous values. -/
def setRedis (c : Config) (options : RedisAssign) : Config :=
  { c with redis :=
    { host := match options.host with
              | some h => h
              | none => c.redis.host
      port := match options.port with
              | some p => p
              | none => c.redis.port
      password := match options.password with
                  | some p => some p
                  | none => c.redis.password } }

/-- The options object handed to an adapter `enqueue` call; optional
fields model keys the caller may omit, defaulted by the destructuring
patterns at the top of each `enqueue`. -/
structure EnqueueOptions (α : Type) where
  args : List α
  delay : Option Int
  attempts : Option Nat
  backoff : Option Nat
deriving DecidableEq

/-- The options `BaseJob.performLater` passes to the adapter (base-job
module, lines 99-106): no delay, attempts and backoff resolved from the
class statics with the configuration defaults as fallback. -/
def BaseJob.performLaterOptions (J : JobStatics) (cfg : Config)
    (args : List α) : EnqueueOptions α where
  args := args
  delay := none
  attempts := some (J.retryAttempts.getD cfg.defaultRetryAttempts)
  backoff := some (J.backoffDelay.getD cfg.defaultBackoffDelay)

/-- The options `BaseJob.performIn(delayMs, ...args)` passes to the
adapter (base-job module, lines 115-123): the given delay forwarded
unchanged, attempts and backoff resolved as in performLater. -/
def BaseJob.performInOptions (J : JobStatics) (cfg : Config)
    (delayMs : Int) (args : List α) : EnqueueOptions α where
  args := args
  delay := some delayMs
  attempts := some (J.retryAttempts.getD cfg.defaultRetryAttempts)
  backoff := some (J.backoffDelay.getD cfg.defaultBackoffDelay)

/-- `BaseJob.performAt(date, ...args)` (base-job module, lines 132-135):
`delayMs = Math.max(0, date.getTime() - Date.now())`, then delegates to
performIn.  Times are epoch milliseconds. -/
def BaseJob.performAtOptions (J : JobStatics) (cfg : Config)
    (nowMs dateMs : Int) (args : List α) : EnqueueOptions α :=
  BaseJob.performInOptions J cfg (max 0 (dateMs - nowMs)) args

/-- The serialized payload the Redis adapter stores for a job
(adapters module, lines 97-101). -/
structure JobData (α : Type) where
  jobClassName : String
  jobClassPath : Option String
  args : List α
deriving DecidableEq

/-- The BullMQ backoff option (adapters module, lines 107-110). -/
structure BullBackoff where
  type : String
  delay : Nat
deriving DecidableEq

/-- The BullMQ submission options (adapters module, lines 104-113). -/
structure BullOpts where
  delay : Int
  attempts : Nat
  backoff : BullBackoff
  removeOnComplete : Bool
  removeOnFail : Bool
deriving DecidableEq

/-- The full broker submission produced by `queue.add` on the resolved
queue: target queue name, job name, payload and options. -/
structure BullSubmission (α : Type) where
  queueName : String
  name : String
  data : JobData α
  opts : BullOpts
deriving DecidableEq

/-- `RedisAdapter.enqueue(JobClass, options)` (adapters module,
lines 84-117): destructures options with defaults from the configuration,
routes to `JobClass.queue || "default"` (the JavaScript falsy test maps
the empty string to "default"), serializes
`{jobClassName, jobClassPath: JobClass._filePath || null, args}` and
submits with a fixed backoff and the resolved attempt count. -/
def RedisAdapter.enqueue (J : JobStatics) (cfg : Config)
    (options : EnqueueOptions α) : BullSubmission α :=
  let args := options.args
  let delay := options.delay.getD 0
  let attempts := options.attempts.getD cfg.defaultRetryAttempts
  let backoff := options.backoff.getD cfg.defaultBackoffDelay
  let queueName := if J.queue = "" then "default" else J.queue
  { queueName := queueName
    name := J.name
    data :=
      { jobClassName := J.name
        jobClassPath := match J.filePath with
                        | some p => if p = "" then none else some p
                        | none => none
        args := args }
    opts :=
      { delay := delay
        attempts := attempts
        backoff := { type := "fixed", delay := backoff }
        removeOnComplete := true
        removeOnFail := false } }

/-- `performLater` dispatched to the Redis adapter (configuration kind
"redis"): the submission the broker receives. -/
def BaseJob.performLaterRedis (J : JobStatics) (cfg : Config)
    (args : List α) : BullSubmission α :=
  RedisAdapter.enqueue J cfg (BaseJob.performLaterOptions J cfg args)

/-- `InlineAdapter.enqueue(JobClass, options)` (adapters module,
lines 18-29): waits `delay` milliseconds when `delay > 0` (and does not
wait otherwise), then instantiates the class and runs `performNow` with
the stored args.  The job instance behaviour is the `Job` value `j`; the
first component is the number of milliseconds waited, the second the
`performNow` outcome and trace. -/
def InlineAdapter.enqueue (j : Job α β ε) (options : EnqueueOptions α) :
    Int × (Except ε β × List (Event α β ε)) :=
  let args := options.args
  let delay := options.delay.getD 0
  (if delay > 0 then delay else 0, performNow j args)

/-- `performIn` dispatched to the inline adapter (configuration kind
"inline"): the delay is forwarded unchanged to `InlineAdapter.enqueue`. -/
def BaseJob.performInInline (j : Job α β ε) (J : JobStatics)
    (cfg : Config) (delayMs : Int) (args : List α) :
    Int × (Except ε β × List (Event α β ε)) :=
  InlineAdapter.enqueue j (BaseJob.performInOptions J cfg delayMs args)

/-- One live worker as held in the `workers` map of src/worker.js:
an identity plus the concurrency it was created with. -/
structure WorkerEntry where
  id : Nat
  concurrency : Nat
deriving DecidableEq

/-- The module-level worker registry of src/worker.js: the `workers` map
keyed by queue name, plus a counter supplying fresh worker identities. -/
structure WorkerState where
  workers : List (String × WorkerEntry)
  nextId : Nat
deriving DecidableEq

/-- `startWorker(queueName, options)` (src/worker.js, lines 78-115): when
the workers map already holds an entry for the queue name it is returned
unchanged and no worker is created; otherwise a fresh worker is
constructed with the requested concurrency and stored. -/
def startWorker (s : WorkerState) (queueName : String)
    (concurrency : Nat) : WorkerState × WorkerEntry :=
  match s.workers.lookup queueName with
  | some w => (s, w)
  | none =>
    let w : WorkerEntry := { id := s.nextId, concurrency := concurrency }
    ({ workers := (queueName, w) :: s.workers, nextId := s.nextId + 1 }, w)

/-- Concrete job statics used by the witnesses: a mailer job with three
retry attempts and a 2000 ms backoff. -/
def demoStatics : JobStatics where
  name := "SendEmailJob"
  queue := "mailers"
  retryAttempts := some 3
  backoffDelay := some 2000
  filePath := none

/-- A worker registry already holding a running worker for the default
queue. -/
def runningState : WorkerState where
  workers := [("default", { id := 0, concurrency := 1 })]
  nextId := 1

/-- Claim C4: `set` writes the merged overrides only to the fresh
ConfiguredJob; the original class statics are left untouched, so a
subsequent unscoped performLater still enqueues to the original queue
with the original retry and backoff settings. -/
theorem set_does_not_mutate (J : JobStatics) (o : SetOptions)
    (cfg : Config) (args2 : List α) :
    (BaseJob.set J o).1 = J
    ∧ (BaseJob.set J o).1.queue = J.queue
    ∧ (BaseJob.set J o).1.retryAttempts = J.retryAttempts
    ∧ (BaseJob.set J o).1.backoffDelay = J.backoffDelay
    ∧ BaseJob.performLaterRedis (BaseJob.set J o).1 cfg args2
        = BaseJob.performLaterRedis J cfg args2
    ∧ (BaseJob.performLaterRedis J cfg args2).queueName
        = (if J.queue = "" then "default" else J.queue)
    ∧ (BaseJob.performLaterRedis J cfg args2).opts.attempts
        = J.retryAttempts.getD cfg.defaultRetryAttempts
    ∧ (BaseJob.performLaterRedis J cfg args2).opts.backoff.delay
        = J.backoffDelay.getD cfg.defaultBackoffDelay :=
  ⟨rfl, rfl, rfl, rfl, rfl, rfl, rfl, rfl⟩

/-- Claim C5: performAt computes `max 0 (dateMs - nowMs)` and delegates
to performIn with that delay; a timestamp at or before the current time
yields exactly the performIn call with delay 0, with no error raised
(the function is total). -/
theorem performAt_delegates
    (J : JobStatics) (cfg : Config) (nowMs dateMs : Int)
    (args : List α) :
    BaseJob.performAtOptions J cfg nowMs dateMs args
      = BaseJob.performInOptions J cfg (max 0 (dateMs - nowMs)) args
    ∧ (dateMs ≤ nowMs →
        BaseJob.performAtOptions J cfg nowMs dateMs args
          = BaseJob.performInOptions J cfg 0 args) := by
  refine ⟨rfl, fun h => ?_⟩
  have hm : max 0 (dateMs - nowMs) = 0 :=
    max_eq_left (by omega)
  rw [BaseJob.performAtOptions, hm]

/-- Claim C5 witness: a timestamp 60 ms in the past behaves as delay 0. -/
theorem performAt_delegates_witness :
    BaseJob.performAtOptions demoStatics defaultConfig 100 40
        ([3] : List Nat)
      = BaseJob.performInOptions demoStatics defaultConfig 0 [3] :=
  (performAt_delegates demoStatics defaultConfig 100 40 [3]).2 (by decide)

/-- Claim C6: with retryAttempts = 3 and a defined backoffDelay, the
Redis submission produced by performLater carries attempts = 3, a fixed
backoff equal to the backoffDelay, the payload
`{jobClassName, jobClassPath (none when unknown), args}` with args
unchanged, and delay 0. -/
theorem performLater_redis_submission
    (J : JobStatics) (cfg : Config) (args : List α) (b : Nat)
    (hr : J.retryAttempts = some 3)
    (hb : J.backoffDelay = some b) :
    (BaseJob.performLaterRedis J cfg args).opts.attempts = 3
    ∧ (BaseJob.performLaterRedis J cfg args).opts.backoff
        = { type := "fixed", delay := b }
    ∧ (BaseJob.performLaterRedis J cfg args).data.jobClassName = J.name
    ∧ (BaseJob.performLaterRedis J cfg args).data.args = args
    ∧ (J.filePath = none →
        (BaseJob.performLaterRedis J cfg args).data.jobClassPath = none)
    ∧ (BaseJob.performLaterRedis J cfg args).opts.delay = 0 := by
  refine ⟨?_, ?_, rfl, rfl, fun h => ?_, rfl⟩
  · simp [BaseJob.performLaterRedis, RedisAdapter.enqueue,
      BaseJob.performLaterOptions, hr]
  · simp [BaseJob.performLaterRedis, RedisAdapter.enqueue,
      BaseJob.performLaterOptions, hb]
  · simp [BaseJob.performLaterRedis, RedisAdapter.enqueue,
      BaseJob.performLaterOptions, h]

/-- Claim C6 witness: concrete submission for demoStatics. -/
theorem performLater_redis_submission_witness :
    (BaseJob.performLaterRedis demoStatics defaultConfig
        ([1, 2] : List Nat)).opts.attempts = 3
    ∧ (BaseJob.performLaterRedis demoStatics defaultConfig
        ([1, 2] : List Nat)).opts.backoff
        = { type := "fixed", delay := 2000 }
    ∧ (BaseJob.performLaterRedis demoStatics defaultConfig
        ([1, 2] : List Nat)).data.jobClassName = "SendEmailJob"
    ∧ (BaseJob.performLaterRedis demoStatics defaultConfig
        ([1, 2] : List Nat)).data.args = [1, 2]
    ∧ (BaseJob.performLaterRedis demoStatics defaultConfig
        ([1, 2] : List Nat)).data.jobClassPath = none := by
  have h := performLater_redis_submission demoStatics defaultConfig
    ([1, 2] : List Nat) 2000 rfl rfl
  exact ⟨h.1, h.2.1, h.2.2.1, h.2.2.2.1, h.2.2.2.2.1 rfl⟩

/-- Claim C7: assigning a value outside the known adapter kinds to
`config.queueAdapter` throws synchronously at assignment time, no updated
state is ever produced, and the stored adapter kind is unchanged. -/
theorem setQueueAdapter_invalid (c : Config) (a : String)
    (h : a ∉ ADAPTER_TYPES) :
    (∃ msg, setQueueAdapter c a = Except.error msg)
    ∧ configAfterSetAdapter c a = c
    ∧ (configAfterSetAdapter c a).queueAdapter = c.queueAdapter
    ∧ (∀ c2, setQueueAdapter c a ≠ Except.ok c2) := by
  have hs : setQueueAdapter c a
      = Except.error
          ("Unknown adapter: " ++ a ++ ". Valid options: inline, redis") := by
    simp [setQueueAdapter, h]
  refine ⟨⟨_, hs⟩, ?_, ?_, ?_⟩
  · simp [configAfterSetAdapter, hs]
  · simp [configAfterSetAdapter, hs]
  · intro c2 hc2
    rw [hs] at hc2
    exact Except.noConfusion hc2

/-- Claim C7 witness: the invalid kind "sidekiq" is rejected and the
default configuration keeps its adapter kind. -/
theorem setQueueAdapter_invalid_witness :
    (∃ msg, setQueueAdapter defaultConfig "sidekiq" = Except.error msg)
    ∧ configAfterSetAdapter defaultConfig "sidekiq" = defaultConfig
    ∧ (configAfterSetAdapter defaultConfig "sidekiq").queueAdapter
        = "inline"
    ∧ (∀ c2, setQueueAdapter defaultConfig "sidekiq" ≠ Except.ok c2) :=
  setQueueAdapter_invalid defaultConfig "sidekiq" (by decide)

/-- Claim C8: starting a worker for a queue name that already has an
entry in the workers map returns that existing worker and leaves the
registry unchanged, regardless of the options passed. -/
theorem startWorker_idempotent (s : WorkerState) (q : String)
    (w : WorkerEntry) (conc : Nat)
    (h : s.workers.lookup q = some w) :
    startWorker s q conc = (s, w) := by
  simp [startWorker, h]

/-- Claim C8 witness: restarting the default-queue worker with different
options returns the original worker and does not grow the registry. -/
theorem startWorker_idempotent_witness :
    startWorker runningState "default" 5
      = (runningState, { id := 0, concurrency := 1 }) :=
  startWorker_idempotent runningState "default"
    { id := 0, concurrency := 1 } 5 rfl

/-- Claim C9: assigning a partial object to `config.redis` merges it
into the stored connection settings: present fields take the assigned
values, absent fields keep their previous values, and the rest of the
configuration is untouched. -/
theorem setRedis_merges (c : Config) (o : RedisAssign) :
    (o.host = none → (setRedis c o).redis.host = c.redis.host)
    ∧ (∀ v, o.host = some v → (setRedis c o).redis.host = v)
    ∧ (o.port = none → (setRedis c o).redis.port = c.redis.port)
    ∧ (∀ v, o.port = some v → (setRedis c o).redis.port = v)
    ∧ (o.password = none →
        (setRedis c o).redis.password = c.redis.password)
    ∧ (∀ v, o.password = some v →
        (setRedis c o).redis.password = some v)
    ∧ (setRedis c o).queueAdapter = c.queueAdapter
    ∧ (setRedis c o).defaultRetryAttempts = c.defaultRetryAttempts
    ∧ (setRedis c o).defaultBackoffDelay = c.defaultBackoffDelay := by
  refine ⟨fun h => ?_, fun v h => ?_, fun h => ?_, fun v h => ?_,
    fun h => ?_, fun v h => ?_, rfl, rfl, rfl⟩ <;>
    simp [setRedis, h]

/-- Claim C9 witness: assigning only a port to the default configuration
keeps host and password and updates the port. -/
theorem setRedis_merges_witness :
    (setRedis defaultConfig
        { host := none, port := some 6380, password := none }).redis.host
      = "localhost"
    ∧ (setRedis defaultConfig
        { host := none, port := some 6380, password := none }).redis.port
      = 6380
    ∧ (setRedis defaultConfig
        { host := none, port := some 6380,
          password := none }).redis.password
      = none := by
  have h := setRedis_merges defaultConfig
    { host := none, port := some 6380, password := none }
  exact ⟨h.1 rfl, h.2.2.2.1 6380 rfl, h.2.2.2.2.1 rfl⟩

/-- Claim C10: for delay at most 0 (including negative delays forwarded
by performIn), the inline adapter run is identical to the delay-0 run: it
waits 0 ms and executes performNow immediately, raising no validation
error. -/
theorem inline_enqueue_nonpositive_delay
    (j : Job α β ε) (J : JobStatics) (cfg : Config)
    (args : List α) (d : Int) (hd : d ≤ 0) :
    BaseJob.performInInline j J cfg d args
      = BaseJob.performInInline j J cfg 0 args
    ∧ (BaseJob.performInInline j J cfg d args).1 = 0
    ∧ (BaseJob.performInInline j J cfg d args).2 = performNow j args := by
  have h1 : ¬ (0 : Int) < d := by omega
  refine ⟨?_, ?_, rfl⟩ <;>
    simp [BaseJob.performInInline, InlineAdapter.enqueue,
      BaseJob.performInOptions, h1]

/-- Claim C10 witness: a negative delay run equals the delay-0 run on a
concrete job. -/
theorem inline_enqueue_nonpositive_delay_witness :
    BaseJob.performInInline hookJob demoStatics defaultConfig (-50) [4]
      = BaseJob.performInInline hookJob demoStatics defaultConfig 0 [4]
    ∧ (BaseJob.performInInline hookJob demoStatics defaultConfig
        (-50) [4]).1 = 0 := by
  have h := inline_enqueue_nonpositive_delay hookJob demoStatics
    defaultConfig [4] (-50) (by decide)
  exact ⟨h.1, h.2.1⟩

end Rjobs
